import Mathlib

/-!
Shallow embedding of the VM/NIC reconciliation core of the
terraform-provider-vstack repository.

Modelling conventions:
* Go `int64` values are modelled as `Int`; where the Go code can overflow
  (multiplication in the unit conversions) the result is wrapped to the
  64-bit two-complement range with `wrap64`.  Go integer division truncates
  toward zero, which is `Int.tdiv`.
* Terraform plugin-framework values (`types.Int64`, `types.String`,
  `types.Object`, `types.List`) are null-able; they are modelled as `Option`.
  `ValueInt64`/`ValueString` return the zero value on null, exactly as the
  framework does.  The plan-time "unknown" value state never reaches the
  reconciliation functions modelled here and is collapsed into null.
* Remote calls are represented by the `RemoteCall` inductive carrying the
  parameters the Go code puts into the JSON-RPC payload.  Side-effecting
  engine functions return the list of calls they issue, in order, together
  with an optional error message; an `oracle : RemoteCall → Bool` stands for
  the transport saying whether each issued call returned a Go error.
-/

namespace VStack

/-- 2 to the 63, the bound of the Go int64 range. -/
def int64Half : Int := 9223372036854775808

/-- 2 to the 64, the size of the Go int64 range. -/
def int64Size : Int := 18446744073709551616

/-- Wrap an unbounded integer into the Go int64 two-complement range
(mathematical remainder, shifted). -/
def wrap64 (n : Int) : Int :=
  (n + int64Half) % int64Size - int64Half

/-- Go int64 multiplication (wraps on overflow). -/
def i64mul (a b : Int) : Int := wrap64 (a * b)

/-- Go int64 division: truncation toward zero, wrapped (minInt64 / -1 wraps). -/
def i64div (a b : Int) : Int := wrap64 (Int.tdiv a b)

/-- helper.ConvertMbToBytes: megabytes to bytes (`megaBytesNum * 1024 * 1024`). -/
def ConvertMbToBytes (megaBytesNum : Int) : Int :=
  i64mul (i64mul megaBytesNum 1024) 1024

/-- helper.ConvertBytesToMb: bytes to megabytes (`bytesNum / 1024 / 1024`). -/
def ConvertBytesToMb (bytesNum : Int) : Int :=
  i64div (i64div bytesNum 1024) 1024

/-- helper.ConvertGbToBytes: gigabytes to bytes (`gigaBytesNum * 1024 * 1024 * 1024`). -/
def ConvertGbToBytes (gigaBytesNum : Int) : Int :=
  i64mul (i64mul (i64mul gigaBytesNum 1024) 1024) 1024

/-- helper.ConvertBytesToGb: bytes to gigabytes (`bytesNum / 1024 / 1024 / 1024`). -/
def ConvertBytesToGb (bytesNum : Int) : Int :=
  i64div (i64div (i64div bytesNum 1024) 1024) 1024

/-- helper.VmStatuses: the registry of operational status codes. -/
structure VmStatuses where
  Started : Int
  Offline : Int
  Starting : Int
  StartFailed : Int
  Stopping : Int
  StopFailed : Int
  Creating : Int
  Deleting : Int
  Deleted : Int
  Created : Int
  Suspended : Int
  Suspending : Int
  SuspendFailed : Int
  Resuming : Int
  ResumeFailed : Int
  CreateFailed : Int
  DeleteFailed : Int
deriving DecidableEq, Repr

/-- helper.Status: the concrete status codes used by the provider. -/
def Status : VmStatuses :=
  { Offline := 1
    Starting := 2
    Started := 3
    StartFailed := 4
    Stopping := 5
    StopFailed := 6
    Creating := 7
    Deleting := 8
    Deleted := 9
    Created := 10
    Suspended := 11
    Suspending := 12
    SuspendFailed := 13
    Resuming := 14
    ResumeFailed := 15
    CreateFailed := 16
    DeleteFailed := 17 }

/-- vstack_api.CodeUnion: the domain status code, decoded from either a JSON
integer or a JSON string. -/
structure CodeUnion where
  asInt : Option Int
  asString : Option String
deriving DecidableEq, Repr

/-- CodeUnion.CodeAsInt: integer form of the code; a non-numeric string or an
empty union yields 0 (strconv.ParseInt failure path). -/
def CodeUnion.codeAsInt (u : CodeUnion) : Int :=
  match u.asInt with
  | some i => i
  | none =>
    match u.asString with
    | some s => (s.toInt?).getD 0
    | none => 0

/-- CodeUnion.CodeAsString: string form of the code. -/
def CodeUnion.codeAsString (u : CodeUnion) : String :=
  match u.asString with
  | some s => s
  | none =>
    match u.asInt with
    | some i => toString i
    | none => ""

/-!
Remote-operation wrappers (package vstack_api).  Each Go wrapper first runs
`DoRequest` (HTTP transport, JSON-RPC envelope decode, top-level error object
check) and then, in some wrappers only, checks the decoded domain status code
against the success sentinel 1.  The transport part is out of scope; each
wrapper is modelled by its post-decode step, a function from the decoded
result to `Except String result`.  Go returns `(result, error)`; callers only
branch on `error != nil`, so `Except` keeps exactly the observable behaviour.
Result payload fields that no modelled caller reads are omitted.
-/

/-- vstack_api.Disk: one disk in the vm-get response payload. -/
structure Disk where
  guid : String
  size : Int
  slot : Int
  iopsLimit : Option Int
  mbpsLimit : Option Int
  label : String
  sectorSize : Option (Int × Int)
deriving DecidableEq, Repr

/-- vstack_api.Guest: guest telemetry in the vm-get response payload. -/
structure GuestData where
  ramUsed : Int
  ramBallonPerformed : Int
  ramBallonRequested : Int
deriving DecidableEq, Repr

/-- The Data payload of vstack_api.VmGetResult, restricted to the fields the
reconciliation core reads.  RootDataset is `interface\x7b\x7d` in Go and is only
ever used through `fmt.Sprintf`, so it is modelled as the resulting string. -/
structure VmGetData where
  adminStatus : Int
  bootMediaID : Int
  cpuPriority : Int
  cpus : Int
  createCompleted : Int
  description : Option String
  disks : List Disk
  id : Int
  locked : Int
  name : String
  node : Int
  operStatus : Int
  osProfile : String
  osType : Int
  pool : String
  ram : Int
  rootDataset : String
  rootDatasetName : String
  status : Int
  uefi : String
  vcpuClass : Int
  vdc : Int
  guest : Option GuestData
deriving DecidableEq, Repr

/-- vstack_api.VmGetResult. -/
structure VmGetResult where
  code : CodeUnion
  data : VmGetData
deriving DecidableEq, Repr

/-- vstack_api.VmGet, post-decode step: rejects a domain code other than 1. -/
def VmGet (r : VmGetResult) : Except String VmGetResult :=
  if r.code.codeAsInt ≠ 1 then
    Except.error ("VmGet returned code=" ++ r.code.codeAsString)
  else
    Except.ok r

/-- The Data payload of vstack_api.VmCreateResult, restricted to the fields
the Create flow reads (the assigned id and the initial operational status). -/
structure VmCreateData where
  id : Int
  operStatus : Int
deriving DecidableEq, Repr

/-- vstack_api.VmCreateResult. -/
structure VmCreateResult where
  code : CodeUnion
  data : VmCreateData
deriving DecidableEq, Repr

/-- vstack_api.VmCreate, post-decode step: rejects a domain code other than 1. -/
def VmCreate (r : VmCreateResult) : Except String VmCreateResult :=
  if r.code.codeAsInt ≠ 1 then
    Except.error ("VmCreate returned code=" ++ r.code.codeAsString)
  else
    Except.ok r

/-- vstack_api.VmSetResult (data carries only a message). -/
structure VmSetResult where
  code : CodeUnion
  message : String
deriving DecidableEq, Repr

/-- vstack_api.VmSet, post-decode step: rejects a domain code other than 1. -/
def VmSet (r : VmSetResult) : Except String VmSetResult :=
  if r.code.codeAsInt ≠ 1 then
    Except.error ("VmSet: unexpected code=" ++ r.code.codeAsString)
  else
    Except.ok r

/-- vstack_api.VmRemoveResult (data carries only a message). -/
structure VmRemoveResult where
  code : CodeUnion
  message : String
deriving DecidableEq, Repr

/-- vstack_api.VmRemove, post-decode step: rejects a domain code other than 1. -/
def VmRemove (r : VmRemoveResult) : Except String VmRemoveResult :=
  if r.code.codeAsInt ≠ 1 then
    Except.error ("VmRemove: unexpected code=" ++ r.code.codeAsString)
  else
    Except.ok r

/-- vstack_api.VmsStartStopResult (data carries only a message). -/
structure VmsStartStopResult where
  code : CodeUnion
  message : String
deriving DecidableEq, Repr

/-- vstack_api.VmsStartStop, post-decode step: the source returns the decoded
result with NO domain status-code check (src/unnamed/part_005 lines 33-50),
although its own doc comment promises an error when the response code is
unexpected. -/
def VmsStartStop (r : VmsStartStopResult) : Except String VmsStartStopResult :=
  Except.ok r

/-- The Data payload of vstack_api.VmsAddDiskResult. -/
structure VmsAddDiskData where
  guid : String
  sectorSizeLogical : Int
  sectorSizePhysical : Int
  size : Int
  label : String
  slot : Int
deriving DecidableEq, Repr

/-- vstack_api.VmsAddDiskResult. -/
structure VmsAddDiskResult where
  code : CodeUnion
  data : VmsAddDiskData
deriving DecidableEq, Repr

/-- vstack_api.VmsAddDisk, post-decode step: no domain status-code check
(src/internal/vstack_api/vms_remove.go lines 76-82). -/
def VmsAddDisk (r : VmsAddDiskResult) : Except String VmsAddDiskResult :=
  Except.ok r

/-- vstack_api.VmsDiskResizeResult (data carries only a message). -/
structure VmsDiskResizeResult where
  code : CodeUnion
  message : String
deriving DecidableEq, Repr

/-- vstack_api.VmsDiskResize, post-decode step: no domain status-code check. -/
def VmsDiskResize (r : VmsDiskResizeResult) : Except String VmsDiskResizeResult :=
  Except.ok r

/-- vstack_api.VmRemoveDiskResult (data carries only a message). -/
structure VmRemoveDiskResult where
  code : CodeUnion
  message : String
deriving DecidableEq, Repr

/-- vstack_api.VmRemoveDisk, post-decode step: no domain status-code check. -/
def VmRemoveDisk (r : VmRemoveDiskResult) : Except String VmRemoveDiskResult :=
  Except.ok r

/-- vstack_api.VmRatelimitDiskResult (data carries only a message). -/
structure VmRatelimitDiskResult where
  code : CodeUnion
  message : String
deriving DecidableEq, Repr

/-- vstack_api.VmRatelimitDisk, post-decode step: no domain status-code check. -/
def VmRatelimitDisk (r : VmRatelimitDiskResult) : Except String VmRatelimitDiskResult :=
  Except.ok r

/-- vstack_api.VmDiskSetLabelResult (data carries only a message). -/
structure VmDiskSetLabelResult where
  code : CodeUnion
  message : String
deriving DecidableEq, Repr

/-- vstack_api.VmDiskSetLabel, post-decode step: no domain status-code check. -/
def VmDiskSetLabel (r : VmDiskSetLabelResult) : Except String VmDiskSetLabelResult :=
  Except.ok r

/-- The Data payload of vstack_api.VmsAddNicResult. -/
structure VmsAddNicData where
  address : String
  mac : String
  networkID : Int
  portID : Int
  slot : Int
  ipGuard : Int
  ratelimitMBits : Option Int
deriving DecidableEq, Repr

/-- vstack_api.VmsAddNicResult. -/
structure VmsAddNicResult where
  code : CodeUnion
  data : VmsAddNicData
deriving DecidableEq, Repr

/-- vstack_api.VmsAddNic, post-decode step: no domain status-code check
(src/unnamed/part_004 lines 74-83). -/
def VmsAddNic (r : VmsAddNicResult) : Except String VmsAddNicResult :=
  Except.ok r

/-- vstack_api.VmRemoveNicResult (data carries only a message). -/
structure VmRemoveNicResult where
  code : CodeUnion
  message : String
deriving DecidableEq, Repr

/-- vstack_api.VmRemoveNic, post-decode step: no domain status-code check. -/
def VmRemoveNic (r : VmRemoveNicResult) : Except String VmRemoveNicResult :=
  Except.ok r

/-- vstack_api.VmRatelimitNicResult (data carries only a message). -/
structure VmRatelimitNicResult where
  code : CodeUnion
  message : String
deriving DecidableEq, Repr

/-- vstack_api.VmRatelimitNic, post-decode step: no domain status-code check. -/
def VmRatelimitNic (r : VmRatelimitNicResult) : Except String VmRatelimitNicResult :=
  Except.ok r

/-!
The Terraform configuration/state model (package models), with the
plugin-framework null-able value types modelled as `Option`.
-/

/-- `types.Int64.ValueInt64`: the value, or 0 when null. -/
def valueInt64 (v : Option Int) : Int := v.getD 0

/-- `types.String.ValueString`: the value, or the empty string when null. -/
def valueString (v : Option String) : String := v.getD ""

/-- helper.int64NullIfNil: a nil pointer becomes a null Int64. -/
def int64NullIfNil (val : Option Int) : Option Int := val

/-- The attributes of the sector_size `types.Object` (models.SectorSizeModel):
each of logical and physical is a null-able Int64. -/
structure SectorSizeAttrs where
  logical : Option Int
  physical : Option Int
deriving DecidableEq, Repr

/-- models.DiskModel.  `sectorSize` is a `types.Object`, null-able as a whole
with null-able attributes. -/
structure DiskModel where
  guid : Option String
  slot : Option Int
  size : Option Int
  iopsLimit : Option Int
  mbpsLimit : Option Int
  label : Option String
  sectorSize : Option SectorSizeAttrs
deriving DecidableEq, Repr

/-- models.UserModel. -/
structure UserModel where
  sshPublicKeys : List (Option String)
  password : Option String
deriving DecidableEq, Repr

/-- models.ResolverModel. -/
structure ResolverModel where
  nameServers : List (Option String)
  search : Option String
deriving DecidableEq, Repr

/-- models.GuestModel.  Users is a Go map keyed by username, modelled as an
association list. -/
structure GuestModel where
  users : List (String × UserModel)
  sshPasswordAuth : Option Int
  resolver : Option ResolverModel
  bootCmds : Option (List String)
  runCmds : Option (List String)
  hostname : Option String
  ramUsed : Option Int
  ramBallonPerformed : Option Int
  ramBallonRequested : Option Int
deriving DecidableEq, Repr

/-- models.VMResourceModel. -/
structure VMResourceModel where
  id : Option Int
  name : Option String
  description : Option String
  cpus : Option Int
  ram : Option Int
  cpuPriority : Option Int
  bootMedia : Option Int
  vcpuClass : Option Int
  osType : Option Int
  osProfile : Option String
  vdcID : Option Int
  adminStatus : Option Int
  node : Option Int
  uefi : Option String
  createCompleted : Option Int
  locked : Option Int
  rootDataset : Option String
  rootDatasetName : Option String
  poolSelector : Option String
  status : Option Int
  operStatus : Option Int
  action : Option String
  guest : Option GuestModel
  disks : List DiskModel
deriving DecidableEq, Repr

/-!
Helper functions (package helper).
-/

/-- helper.ApplyDefaultSectorSize: a null sector_size object becomes
logical=512 / physical=512; a present object has each null attribute filled
with 512. -/
def ApplyDefaultSectorSize (disk : DiskModel) : DiskModel :=
  match disk.sectorSize with
  | none =>
    { disk with sectorSize := some { logical := some 512, physical := some 512 } }
  | some attrs =>
    let l := match attrs.logical with
      | none => some (512 : Int)
      | some v => some v
    let p := match attrs.physical with
      | none => some (512 : Int)
      | some v => some v
    { disk with sectorSize := some { logical := l, physical := p } }

/-- helper.validateInt64: fails exactly when the (typed) int64 value is
negative.  The Go type assertion on `interface\x7b\x7d` cannot fail for the
statically typed int64 arguments every caller passes. -/
def validateInt64 (v : Int) (fieldName : String) : Option String :=
  if v < 0 then
    some ("invalid value for field " ++ fieldName ++ ", must be non-negative")
  else
    none

/-- helper.validateString: the Go type assertion on a statically typed string
argument always succeeds, so this validation never fails. -/
def validateString (_v : String) (_fieldName : String) : Option String := none

/-- helper.getActionFromStatus: derives the persisted action string from the
operational status (the Go switch statement). -/
def getActionFromStatus (status : Int) : String :=
  if status = Status.Started then "start"
  else if status = Status.Offline ∨ status = Status.Created then "stop"
  else ""

/-- Go strings.ToLower, restricted to the ASCII arguments the provider uses. -/
def stringToLower (s : String) : String := ⟨s.data.map Char.toLower⟩

/-!
The State Mapper (helper.MapRespToState and helper.MapDisksToModel).
Sequential early-return validation is modelled by `List.findSome?` over the
per-field validation results, in source order.
-/

/-- The validation sequence helper.MapDisksToModel runs for the disk at index
`i`: GUID and Label (string checks, never fail), Size and Slot, and the
optional IOPSLimit / MBPSLimit when the pointers are non-nil. -/
def diskValidationErr (i : Nat) (disk : Disk) : Option String :=
  (([validateString disk.guid ("Disk[" ++ toString i ++ "].GUID"),
     validateString disk.label ("Disk[" ++ toString i ++ "].Label"),
     validateInt64 disk.size ("Disk[" ++ toString i ++ "].Size"),
     validateInt64 disk.slot ("Disk[" ++ toString i ++ "].Slot")] ++
    (match disk.iopsLimit with
     | some v => [validateInt64 v ("Disk[" ++ toString i ++ "].IOPSLimit")]
     | none => []) ++
    (match disk.mbpsLimit with
     | some v => [validateInt64 v ("Disk[" ++ toString i ++ "].MBPSLimit")]
     | none => [])).findSome? id)

/-- One step of helper.MapDisksToModel: validate the disk at index `i` and
convert it (size bytes to GB, nil limits to null, absent sector_size to a
null object rather than zeroes).  The `types.ObjectValue` diagnostics branch
cannot fire for the fixed logical/physical schema and is not represented. -/
def mapDiskToModel (i : Nat) (disk : Disk) : Except String DiskModel :=
  match diskValidationErr i disk with
  | some e => Except.error e
  | none =>
    let sectorSize : Option SectorSizeAttrs :=
      match disk.sectorSize with
      | some ss => some { logical := some ss.1, physical := some ss.2 }
      | none => none
    Except.ok
      { guid := some disk.guid
        slot := some disk.slot
        size := some (ConvertBytesToGb disk.size)
        iopsLimit := int64NullIfNil disk.iopsLimit
        mbpsLimit := int64NullIfNil disk.mbpsLimit
        label := some disk.label
        sectorSize := sectorSize }

/-- The indexed loop of helper.MapDisksToModel; the first failing disk aborts
the whole mapping with its error. -/
def mapDisksToModelGo (i : Nat) : List Disk → Except String (List DiskModel)
  | [] => Except.ok []
  | d :: rest =>
    match mapDiskToModel i d with
    | Except.error e => Except.error e
    | Except.ok m =>
      match mapDisksToModelGo (i + 1) rest with
      | Except.error e => Except.error e
      | Except.ok ms => Except.ok (m :: ms)

/-- helper.MapDisksToModel. -/
def MapDisksToModel (disks : List Disk) : Except String (List DiskModel) :=
  mapDisksToModelGo 0 disks

/-- The validation sequence of helper.MapRespToState, in source order: the 14
required integer fields, then the 6 required string fields. -/
def mapRespValidationErr (resp : VmGetResult) : Option String :=
  ([validateInt64 resp.data.id "ID",
    validateInt64 resp.data.cpus "CPUs",
    validateInt64 resp.data.ram "RAM",
    validateInt64 resp.data.cpuPriority "CPU Priority",
    validateInt64 resp.data.bootMediaID "Boot Media ID",
    validateInt64 resp.data.vcpuClass "Vcpu Class",
    validateInt64 resp.data.osType "OS Type",
    validateInt64 resp.data.vdc "Vdc ID",
    validateInt64 resp.data.adminStatus "Admin Status",
    validateInt64 resp.data.node "Node",
    validateInt64 resp.data.createCompleted "Create Completed",
    validateInt64 resp.data.locked "Locked",
    validateInt64 resp.data.status "Status",
    validateInt64 resp.data.operStatus "Oper Status",
    validateString resp.data.name "Name",
    validateString resp.data.osProfile "OS Profile",
    validateString resp.data.rootDataset "Root Dataset",
    validateString resp.data.rootDatasetName "Root Dataset Name",
    validateString resp.data.pool "Pool VM resident",
    validateString resp.data.uefi "UEFI"]).findSome? id

/-- The Guest block of helper.MapRespToState: remote telemetry is taken from
the response, guest-customization inputs (hostname, boot/run commands,
resolver, users, ssh-password-auth) are preserved from the prior state when
present there. -/
def mapGuest (respGuest : Option GuestData) (stateGuest : Option GuestModel) :
    Option GuestModel :=
  match respGuest with
  | none => none
  | some g =>
    some
      { ramUsed := some g.ramUsed
        ramBallonPerformed := some g.ramBallonPerformed
        ramBallonRequested := some g.ramBallonRequested
        hostname :=
          match stateGuest with
          | some sg => sg.hostname
          | none => none
        bootCmds :=
          match stateGuest with
          | some sg => sg.bootCmds
          | none => none
        runCmds :=
          match stateGuest with
          | some sg => sg.runCmds
          | none => none
        resolver :=
          match stateGuest with
          | some sg => sg.resolver
          | none => none
        users :=
          match stateGuest with
          | some sg => if sg.users.length > 0 then sg.users else []
          | none => []
        sshPasswordAuth :=
          match stateGuest with
          | some sg =>
            match sg.sshPasswordAuth with
            | some v => some v
            | none => some 0
          | none => some 0 }

/-- helper.MapRespToState.  A scalar-field validation failure returns the
caller-supplied state untouched; after the scalar fields have been written,
a disk-mapping failure returns the already-rewritten state together with the
error (the Go code keeps mutating its by-value `state` parameter and returns
it on the disk error path). -/
def MapRespToState (resp : VmGetResult) (state : VMResourceModel) :
    VMResourceModel × Option String :=
  match mapRespValidationErr resp with
  | some e => (state, some e)
  | none =>
    let s : VMResourceModel :=
      { state with
        id := some resp.data.id
        name := some resp.data.name
        description := resp.data.description
        cpus := some resp.data.cpus
        ram := some (ConvertBytesToMb resp.data.ram)
        cpuPriority := some resp.data.cpuPriority
        bootMedia := some resp.data.bootMediaID
        vcpuClass := some resp.data.vcpuClass
        osType := some resp.data.osType
        osProfile := some resp.data.osProfile
        vdcID := some resp.data.vdc
        adminStatus := some resp.data.adminStatus
        node := some resp.data.node
        uefi := some resp.data.uefi
        createCompleted := some resp.data.createCompleted
        locked := some resp.data.locked
        rootDataset := some resp.data.rootDataset
        rootDatasetName := some resp.data.rootDatasetName
        poolSelector := some resp.data.pool
        status := some resp.data.status
        operStatus := some resp.data.operStatus
        action := some (getActionFromStatus resp.data.operStatus)
        guest := mapGuest resp.data.guest state.guest }
    match MapDisksToModel resp.data.disks with
    | Except.error e => (s, some e)
    | Except.ok ds => ({ s with disks := ds }, none)

/-!
The reconciliation engine (UpdateDisks and the Update / Create orchestration
in resource_vstack_vm.go).  A remote call is represented by its method name
and the parameters the Go code places into the JSON-RPC payload; the
`oracle` argument answers, per issued call, whether the Go wrapper returned
nil (`true`) or a non-nil error (`false`).
-/

/-- One remote call issued by the reconciliation core, with the payload
fields the Go code sends. -/
inductive RemoteCall where
  | vmGet (id : Int)
  | vmSet (id : Int) (paramKeys : List String)
  | vmsStartStop (method : String) (id : Int)
  | vmsAddDisk (vmId : Int) (size : Int) (slot : Int) (label : String)
      (logical : Int) (physical : Int) (iopsLimit : Int) (mbpsLimit : Int)
  | vmsDiskResize (id : Int) (diskGuid : String) (size : Int)
  | vmRemoveDisk (vmId : Int) (diskGuid : String)
  | vmRatelimitDisk (vmId : Int) (diskGuid : String) (mbpsLimit : Int) (iopsLimit : Int)
  | vmDiskSetLabel (vmId : Int) (guid : String) (label : String)
deriving DecidableEq, Repr

/-- Whether a call is one of the read-only describe calls (vm-get). -/
def RemoteCall.isRead : RemoteCall → Bool
  | RemoteCall.vmGet _ => true
  | _ => false

/-- Whether a call is a vms-disk-resize call. -/
def RemoteCall.isDiskResize : RemoteCall → Bool
  | RemoteCall.vmsDiskResize _ _ _ => true
  | _ => false

/-- helper.ActionVM. -/
structure ActionVM where
  operStatus : Int
  method : String
deriving DecidableEq, Repr

/-- helper.Action: the name-to-action registry ("start" is executed as
vms-restart, "stop" as vms-stop). -/
def Action : List (String × ActionVM) :=
  [("start", { operStatus := Status.Started, method := "vms-restart" }),
   ("stop", { operStatus := Status.Offline, method := "vms-stop" })]

/-- ActionVM.Execute: one vms-start-stop call with the mapped method name. -/
def ActionVM.Execute (a : ActionVM) (vmID : Int) (oracle : RemoteCall → Bool) :
    List RemoteCall × Option String :=
  let c := RemoteCall.vmsStartStop a.method vmID
  if oracle c then ([c], none)
  else ([c], some ("failed to perform action on VM: " ++ a.method))

/-- helper.PerformAction: lower-case the name, look it up in the registry
and execute it; an unknown name is an unsupported-action error with no call. -/
def PerformAction (vmID : Int) (actionName : String) (oracle : RemoteCall → Bool) :
    List RemoteCall × Option String :=
  let lowered := stringToLower actionName
  match (Action.find? (fun p => p.1 = lowered)).map Prod.snd with
  | none => ([], some ("unsupported action: " ++ lowered))
  | some a => a.Execute vmID oracle

/-- The detail message of the sector-size policy error in updateExistingDisk
(the fmt.Sprintf text, with the slot interpolated). -/
def sectorSizeNotAllowedDetail (slot : Int) : String :=
  "Cannot modify sector_size for disk in slot " ++ toString slot ++
    ". To change sector_size, remove the disk and add a new one with the desired sector_size."

/-- updateExistingDisk (src/unnamed/part_002 lines 79-155): sector-size
change is a hard error before any call; otherwise grow-only resize, then a
combined ratelimit update, then a label update, each aborting on a failed
call. -/
def updateExistingDisk (state : VMResourceModel) (disk stateDisk : DiskModel)
    (oracle : RemoteCall → Bool) : List RemoteCall × Option String :=
  let slot := valueInt64 disk.slot
  if disk.sectorSize ≠ stateDisk.sectorSize then
    ([], some (sectorSizeNotAllowedDetail slot))
  else
    let resizeStep : List RemoteCall × Option String :=
      if valueInt64 disk.size > valueInt64 stateDisk.size then
        let c := RemoteCall.vmsDiskResize (valueInt64 state.id)
          (valueString stateDisk.guid) (ConvertGbToBytes (valueInt64 disk.size))
        ([c], if oracle c then none else some "Error resizing disk")
      else ([], none)
    match resizeStep with
    | (cs, some e) => (cs, some e)
    | (cs, none) =>
      let ratelimitStep : List RemoteCall × Option String :=
        if valueInt64 disk.mbpsLimit ≠ valueInt64 stateDisk.mbpsLimit ∨
            valueInt64 disk.iopsLimit ≠ valueInt64 stateDisk.iopsLimit then
          let c := RemoteCall.vmRatelimitDisk (valueInt64 state.id)
            (valueString stateDisk.guid) (valueInt64 disk.mbpsLimit)
            (valueInt64 disk.iopsLimit)
          ([c], if oracle c then none else some "Error updating disk rate limits")
        else ([], none)
      match ratelimitStep with
      | (cs2, some e) => (cs ++ cs2, some e)
      | (cs2, none) =>
        let labelStep : List RemoteCall × Option String :=
          if valueString disk.label ≠ valueString stateDisk.label then
            let c := RemoteCall.vmDiskSetLabel (valueInt64 state.id)
              (valueString stateDisk.guid) (valueString disk.label)
            ([c], if oracle c then none else some "Error updating disk label")
          else ([], none)
        match labelStep with
        | (cs3, e3) => (cs ++ cs2 ++ cs3, e3)

/-- The sector_size payload addNewDisk builds: defaults logical=512 /
physical=4096, each overridden by a non-null attribute of a non-null
sector_size object. -/
def addDiskSectorAttrs (disk : DiskModel) : Int × Int :=
  match disk.sectorSize with
  | none => (512, 4096)
  | some a => (a.logical.getD 512, a.physical.getD 4096)

/-- addNewDisk (src/unnamed/part_002 lines 159-201): one vms-add-disk call
with the size converted from GB to bytes and the sector-size payload of
`addDiskSectorAttrs`. -/
def addNewDisk (state : VMResourceModel) (disk : DiskModel)
    (oracle : RemoteCall → Bool) : List RemoteCall × Option String :=
  let ss := addDiskSectorAttrs disk
  let c := RemoteCall.vmsAddDisk (valueInt64 state.id)
    (ConvertGbToBytes (valueInt64 disk.size)) (valueInt64 disk.slot)
    (valueString disk.label) ss.1 ss.2 (valueInt64 disk.iopsLimit)
    (valueInt64 disk.mbpsLimit)
  ([c], if oracle c then none else some "Error adding disk")

/-- removeDisksNotInPlan (src/unnamed/part_002 lines 205-265): every state
disk whose slot is not in the plan is removed; the removal is preceded by a
vms-stop when the snapshot operational status is not Offline and followed by
a vms-restart under the same (never re-read) condition.  Any failed call
aborts. -/
def removeDisksGo (state : VMResourceModel) (planDisksSlots : List Int)
    (oracle : RemoteCall → Bool) : List DiskModel → List RemoteCall × Option String
  | [] => ([], none)
  | stateDisk :: rest =>
    let slot := valueInt64 stateDisk.slot
    if slot ∈ planDisksSlots then removeDisksGo state planDisksSlots oracle rest
    else
      let stopStep : List RemoteCall × Option String :=
        if valueInt64 state.operStatus ≠ Status.Offline then
          let c := RemoteCall.vmsStartStop "vms-stop" (valueInt64 state.id)
          ([c], if oracle c then none else some "Error stopping VM before removing disk")
        else ([], none)
      match stopStep with
      | (cs, some e) => (cs, some e)
      | (cs, none) =>
        let c := RemoteCall.vmRemoveDisk (valueInt64 state.id) (valueString stateDisk.guid)
        if oracle c then
          let restartStep : List RemoteCall × Option String :=
            if valueInt64 state.operStatus ≠ Status.Offline then
              let c2 := RemoteCall.vmsStartStop "vms-restart" (valueInt64 state.id)
              ([c2], if oracle c2 then none else some "Error restarting VM after removing disk")
            else ([], none)
          match restartStep with
          | (cs2, some e) => (cs ++ [c] ++ cs2, some e)
          | (cs2, none) =>
            match removeDisksGo state planDisksSlots oracle rest with
            | (cs3, e3) => (cs ++ [c] ++ cs2 ++ cs3, e3)
        else (cs ++ [c], some "Error removing disk")

/-- removeDisksNotInPlan, entry point over the snapshot state disk list. -/
def removeDisksNotInPlan (state : VMResourceModel) (planDisksSlots : List Int)
    (oracle : RemoteCall → Bool) : List RemoteCall × Option String :=
  removeDisksGo state planDisksSlots oracle state.disks

/-- The stateDisksBySlot map of UpdateDisks: a Go map built by insertion in
list order, so for duplicate slots the last state disk wins. -/
def stateDiskForSlot (disks : List DiskModel) (slot : Int) : Option DiskModel :=
  (disks.filter (fun d => valueInt64 d.slot = slot)).getLast?

/-- Step 4 of UpdateDisks: walk the (default-filled) plan disks in order,
updating slots present in the state map and adding the others; the first
error aborts. -/
def updateDisksGo (state : VMResourceModel) (oracle : RemoteCall → Bool) :
    List DiskModel → List RemoteCall × Option String
  | [] => ([], none)
  | disk :: rest =>
    let step :=
      match stateDiskForSlot state.disks (valueInt64 disk.slot) with
      | some stateDisk => updateExistingDisk state disk stateDisk oracle
      | none => addNewDisk state disk oracle
    match step with
    | (cs, some e) => (cs, some e)
    | (cs, none) =>
      match updateDisksGo state oracle rest with
      | (cs2, e2) => (cs ++ cs2, e2)

/-- UpdateDisks (src/unnamed/part_002 lines 20-74): apply the 512/512
sector-size defaults to every plan disk, reconcile the plan disks against
the by-slot state map, then remove the state disks whose slot left the
plan. -/
def UpdateDisks (plan state : VMResourceModel) (oracle : RemoteCall → Bool) :
    List RemoteCall × Option String :=
  let planDisks := plan.disks.map ApplyDefaultSectorSize
  let planDisksSlots := planDisks.map (fun d => valueInt64 d.slot)
  match updateDisksGo state oracle planDisks with
  | (cs, some e) => (cs, some e)
  | (cs, none) =>
    match removeDisksNotInPlan state planDisksSlots oracle with
    | (cs2, e2) => (cs ++ cs2, e2)

/-!
The VM Lifecycle Controller orchestration (resource_vstack_vm.go).  The
start/stop blocks call helper.CheckIfVMIsRunning, which issues one vm-get
call and reports whether the operational status equals Status.Started; the
`isRunning` argument below is the answer that check returns when its vm-get
call succeeds.
-/

/-- The list of changed mutable top-level fields Update collects into
vm_params, as the Go comparison sequence of plan against prior state (map
insertion order; the claims only inspect emptiness). -/
def changedVmParams (plan state : VMResourceModel) : List String :=
  (if valueString plan.name ≠ valueString state.name then ["name"] else []) ++
  (if valueString plan.description ≠ valueString state.description then ["description"] else []) ++
  (if valueInt64 plan.cpus ≠ valueInt64 state.cpus then ["cpus"] else []) ++
  (if valueInt64 plan.ram ≠ valueInt64 state.ram then ["ram"] else []) ++
  (if valueInt64 plan.cpuPriority ≠ valueInt64 state.cpuPriority then ["cpu_priority"] else []) ++
  (if valueInt64 plan.bootMedia ≠ valueInt64 state.bootMedia then ["boot_media"] else []) ++
  (if valueInt64 plan.vcpuClass ≠ valueInt64 state.vcpuClass then ["vcpu_class"] else []) ++
  (if valueInt64 plan.osType ≠ valueInt64 state.osType then ["os_type"] else []) ++
  (if valueString plan.osProfile ≠ valueString state.osProfile then ["os_profile"] else []) ++
  (if valueInt64 plan.vdcID ≠ valueInt64 state.vdcID then ["vdc_id"] else []) ++
  (if valueString plan.poolSelector ≠ valueString state.poolSelector then ["pool_selector"] else [])

/-- Step 4 of Update (resource_vstack_vm.go lines 801-839): apply the
requested start/stop action.  The "stop" branch first runs
CheckIfVMIsRunning (one vm-get call) and bootstraps a start when the prior
state status is Created or the VM is not running. -/
def updateManageVMState (vmID : Int) (stateOperStatus : Int) (action : String)
    (isRunning : Bool) (oracle : RemoteCall → Bool) :
    List RemoteCall × Option String :=
  let lowered := stringToLower action
  if lowered = "" then ([], none)
  else if lowered = "start" then
    match PerformAction vmID "start" oracle with
    | (cs, some _) => (cs, some "Error starting VM")
    | (cs, none) => (cs, none)
  else if lowered = "stop" then
    let check := RemoteCall.vmGet vmID
    if oracle check then
      let startStep : List RemoteCall × Option String :=
        if stateOperStatus = Status.Created ∨ isRunning = false then
          match PerformAction vmID "start" oracle with
          | (cs, some _) => (cs, some "Error starting VM before stopping")
          | (cs, none) => (cs, none)
        else ([], none)
      match startStep with
      | (cs, some e) => (check :: cs, some e)
      | (cs, none) =>
        match PerformAction vmID "stop" oracle with
        | (cs2, some _) => (check :: (cs ++ cs2), some "Error stopping VM")
        | (cs2, none) => (check :: (cs ++ cs2), none)
    else ([check], some "Error checking VM status")
  else ([], some ("Unsupported action: " ++ lowered))

/-- Update (resource_vstack_vm.go lines 715-869): reject a zero id, delegate
disk reconciliation, issue one vm-set call when at least one mutable
top-level field changed, apply the requested action, then re-describe with a
final vm-get.  The terminating MapRespToState / state persistence issues no
remote call and is not represented. -/
def UpdateVM (plan state : VMResourceModel) (isRunning : Bool)
    (oracle : RemoteCall → Bool) : List RemoteCall × Option String :=
  let vmID := valueInt64 plan.id
  if vmID = 0 then ([], some "Invalid VM ID")
  else
    match UpdateDisks plan state oracle with
    | (cs, some e) => (cs, some e)
    | (cs, none) =>
      let vmParams := changedVmParams plan state
      let setStep : List RemoteCall × Option String :=
        if vmParams.length > 0 then
          let c := RemoteCall.vmSet vmID vmParams
          ([c], if oracle c then none else some "Error updating VM parameters")
        else ([], none)
      match setStep with
      | (cs2, some e) => (cs ++ cs2, some e)
      | (cs2, none) =>
        match updateManageVMState vmID (valueInt64 state.operStatus)
            (valueString plan.action) isRunning oracle with
        | (cs3, some e) => (cs ++ cs2 ++ cs3, some e)
        | (cs3, none) =>
          let final := RemoteCall.vmGet vmID
          (cs ++ cs2 ++ cs3 ++ [final],
            if oracle final then none else some "Error on vstack_api.VmGet func")

/-- Step 8 of Create (resource_vstack_vm.go lines 592-626): apply the
requested action right after creation.  With action "stop" the controller
first runs CheckIfVMIsRunning (one vm-get call) and bootstraps a start when
the immediate post-create operational status is Created or the VM is not
running, then stops. -/
def createManageVMState (vmID : Int) (postCreateOperStatus : Int)
    (action : String) (isRunning : Bool) (oracle : RemoteCall → Bool) :
    List RemoteCall × Option String :=
  let lowered := stringToLower action
  if lowered = "start" then
    match PerformAction vmID "start" oracle with
    | (cs, some _) => (cs, some "Error starting VM")
    | (cs, none) => (cs, none)
  else if lowered = "stop" then
    let check := RemoteCall.vmGet vmID
    if oracle check then
      let startStep : List RemoteCall × Option String :=
        if postCreateOperStatus = Status.Created ∨ isRunning = false then
          match PerformAction vmID "start" oracle with
          | (cs, some _) => (cs, some "Error starting VM before stopping")
          | (cs, none) => (cs, none)
        else ([], none)
      match startStep with
      | (cs, some e) => (check :: cs, some e)
      | (cs, none) =>
        match PerformAction vmID "stop" oracle with
        | (cs2, some _) => (check :: (cs ++ cs2), some "Error stopping VM")
        | (cs2, none) => (check :: (cs ++ cs2), none)
    else ([check], some "Error checking VM status")
  else if lowered = "" then ([], none)
  else ([], some ("Unsupported action: " ++ lowered))

/-!
Theorems.
-/

/-- A value already inside the 64-bit two-complement range is unchanged by
the wrap. -/
theorem wrap64_eq_self {n : Int} (h1 : -int64Half ≤ n) (h2 : n < int64Half) :
    wrap64 n = n := by
  have h0 : (0 : Int) ≤ n + int64Half := by linarith
  have hlt : n + int64Half < int64Size := by
    have hs : int64Size = int64Half + int64Half := by norm_num [int64Half, int64Size]
    omega
  unfold wrap64
  rw [Int.emod_eq_of_lt h0 hlt]
  ring

/-- Go multiplication agrees with exact multiplication when the product is in
range. -/
theorem i64mul_eq (a b c : Int) (hc : a * b = c) (h1 : 0 ≤ c) (h2 : c < int64Half) :
    i64mul a b = c := by
  have hpos : (0 : Int) < int64Half := by norm_num [int64Half]
  unfold i64mul
  rw [hc]
  exact wrap64_eq_self (by linarith) h2

/-- Go division agrees with truncated division when the quotient is in
range. -/
theorem i64div_eq (a b c : Int) (hc : Int.tdiv a b = c) (h1 : 0 ≤ c) (h2 : c < int64Half) :
    i64div a b = c := by
  have hpos : (0 : Int) < int64Half := by norm_num [int64Half]
  unfold i64div
  rw [hc]
  exact wrap64_eq_self (by linarith) h2

/-- GB-to-bytes round trip: exact within the non-overflowing range. -/
theorem convertGb_roundTrip (g : Int) (hg : 0 ≤ g) (hov : g * 1073741824 < int64Half) :
    ConvertBytesToGb (ConvertGbToBytes g) = g := by
  have hm1 : g * 1024 ≤ g * 1073741824 := mul_le_mul_of_nonneg_left (by norm_num) hg
  have hm2 : g * 1048576 ≤ g * 1073741824 := mul_le_mul_of_nonneg_left (by norm_num) hg
  have e1 : i64mul g 1024 = g * 1024 :=
    i64mul_eq _ _ _ rfl (mul_nonneg hg (by norm_num)) (by linarith)
  have e2 : i64mul (g * 1024) 1024 = g * 1048576 :=
    i64mul_eq _ _ _ (by ring) (mul_nonneg hg (by norm_num)) (by linarith)
  have e3 : i64mul (g * 1048576) 1024 = g * 1073741824 :=
    i64mul_eq _ _ _ (by ring) (mul_nonneg hg (by norm_num)) (by linarith)
  have hGb : ConvertGbToBytes g = g * 1073741824 := by
    unfold ConvertGbToBytes
    rw [e1, e2, e3]
  have d1 : Int.tdiv (g * 1073741824) 1024 = g * 1048576 := by
    rw [show g * 1073741824 = g * 1048576 * 1024 by ring]
    exact Int.mul_tdiv_cancel _ (by norm_num)
  have d2 : Int.tdiv (g * 1048576) 1024 = g * 1024 := by
    rw [show g * 1048576 = g * 1024 * 1024 by ring]
    exact Int.mul_tdiv_cancel _ (by norm_num)
  have d3 : Int.tdiv (g * 1024) 1024 = g := Int.mul_tdiv_cancel _ (by norm_num)
  rw [hGb]
  unfold ConvertBytesToGb
  rw [i64div_eq _ _ _ d1 (mul_nonneg hg (by norm_num)) (by linarith),
    i64div_eq _ _ _ d2 (mul_nonneg hg (by norm_num)) (by linarith),
    i64div_eq _ _ _ d3 hg (by linarith)]

/-- MB-to-bytes round trip: exact within the non-overflowing range. -/
theorem convertMb_roundTrip (m : Int) (hm : 0 ≤ m) (hov : m * 1048576 < int64Half) :
    ConvertBytesToMb (ConvertMbToBytes m) = m := by
  have hm1 : m * 1024 ≤ m * 1048576 := mul_le_mul_of_nonneg_left (by norm_num) hm
  have e1 : i64mul m 1024 = m * 1024 :=
    i64mul_eq _ _ _ rfl (mul_nonneg hm (by norm_num)) (by linarith)
  have e2 : i64mul (m * 1024) 1024 = m * 1048576 :=
    i64mul_eq _ _ _ (by ring) (mul_nonneg hm (by norm_num)) (by linarith)
  have hMb : ConvertMbToBytes m = m * 1048576 := by
    unfold ConvertMbToBytes
    rw [e1, e2]
  have d1 : Int.tdiv (m * 1048576) 1024 = m * 1024 := by
    rw [show m * 1048576 = m * 1024 * 1024 by ring]
    exact Int.mul_tdiv_cancel _ (by norm_num)
  have d2 : Int.tdiv (m * 1024) 1024 = m := Int.mul_tdiv_cancel _ (by norm_num)
  rw [hMb]
  unfold ConvertBytesToMb
  rw [i64div_eq _ _ _ d1 (mul_nonneg hm (by norm_num)) (by linarith),
    i64div_eq _ _ _ d2 hm (by linarith)]

/-- C10: converting whole gigabytes (resp. megabytes) to bytes and back is
the identity for non-negative sizes without 64-bit overflow, while the
reverse composition truncates: a byte count that is not a whole multiple of
2^30 (resp. 2^20) maps downward, so distinct remote sizes collapse to the
same external size. -/
theorem c10_conversion_roundtrip :
    (∀ g : Int, 0 ≤ g → g * 1073741824 < int64Half →
      ConvertBytesToGb (ConvertGbToBytes g) = g) ∧
    (∀ m : Int, 0 ≤ m → m * 1048576 < int64Half →
      ConvertBytesToMb (ConvertMbToBytes m) = m) ∧
    ConvertGbToBytes (ConvertBytesToGb 1) ≠ 1 ∧
    ConvertBytesToGb 1073741824 = ConvertBytesToGb 1073741825 ∧
    (1073741824 : Int) ≠ 1073741825 ∧
    ConvertMbToBytes (ConvertBytesToMb 1) ≠ 1 ∧
    ConvertBytesToMb 1048576 = ConvertBytesToMb 1048577 :=
  ⟨convertGb_roundTrip, convertMb_roundTrip, by decide, by decide, by decide,
    by decide, by decide⟩

/-- Witness for C10 at g = m = 5. -/
theorem c10_conversion_roundtrip_witness :
    (0 ≤ (5 : Int) ∧ (5 : Int) * 1073741824 < int64Half ∧
      ConvertBytesToGb (ConvertGbToBytes 5) = 5) ∧
    (0 ≤ (5 : Int) ∧ (5 : Int) * 1048576 < int64Half ∧
      ConvertBytesToMb (ConvertMbToBytes 5) = 5) :=
  ⟨⟨by decide, by decide, c10_conversion_roundtrip.1 5 (by decide) (by decide)⟩,
    ⟨by decide, by decide, c10_conversion_roundtrip.2.1 5 (by decide) (by decide)⟩⟩

/-- C9: the state mapper derives the persisted action from the operational
status: started (3) gives "start", offline (1) or created (10) gives
"stop", every other status gives the empty string. -/
theorem c9_action_from_status (s : Int) :
    getActionFromStatus s =
      if s = 3 then "start" else if s = 1 ∨ s = 10 then "stop" else "" := by
  simp only [getActionFromStatus, Status]

/-- A decoded domain status code 0 (an int, so CodeAsInt is 0, not the
success sentinel 1). -/
def code0 : CodeUnion := { asInt := some 0, asString := none }

/-- An all-zero vm-get data payload, used to exercise the code check. -/
def zeroVmGetData : VmGetData :=
  { adminStatus := 0, bootMediaID := 0, cpuPriority := 0, cpus := 0
    createCompleted := 0, description := none, disks := [], id := 0
    locked := 0, name := "", node := 0, operStatus := 0, osProfile := ""
    osType := 0, pool := "", ram := 0, rootDataset := "", rootDatasetName := ""
    status := 0, uefi := "", vcpuClass := 0, vdc := 0, guest := none }

/-- C1: the claim that EVERY remote operation turns a non-success domain
status code into a logical failure does not hold in the code.  With a
decoded response whose code is 0 (not the sentinel 1) the wrappers for
vms-start-stop, vms-add-disk, vms-disk-resize, vm-remove-disk,
vm-ratelimit-disk, vm-disk-set-label, vms-add-nic, vm-remove-nic and
vm-ratelimit-nic all report success, while vm-get, vm-set, vms-remove and
vms-create do reject the same code.  This contradicts the wrappers own doc
comments (and the spec), so it is recorded as a code bug. -/
theorem c1_domain_code_not_checked :
    CodeUnion.codeAsInt code0 ≠ 1 ∧
    VmsStartStop { code := code0, message := "start failed" } =
      Except.ok { code := code0, message := "start failed" } ∧
    VmsAddDisk { code := code0, data :=
        { guid := "", sectorSizeLogical := 0, sectorSizePhysical := 0,
          size := 0, label := "", slot := 0 } } =
      Except.ok { code := code0, data :=
        { guid := "", sectorSizeLogical := 0, sectorSizePhysical := 0,
          size := 0, label := "", slot := 0 } } ∧
    VmsDiskResize { code := code0, message := "resize failed" } =
      Except.ok { code := code0, message := "resize failed" } ∧
    VmRemoveDisk { code := code0, message := "remove failed" } =
      Except.ok { code := code0, message := "remove failed" } ∧
    VmRatelimitDisk { code := code0, message := "ratelimit failed" } =
      Except.ok { code := code0, message := "ratelimit failed" } ∧
    VmDiskSetLabel { code := code0, message := "label failed" } =
      Except.ok { code := code0, message := "label failed" } ∧
    VmsAddNic { code := code0, data :=
        { address := "", mac := "", networkID := 0, portID := 0, slot := 0,
          ipGuard := 0, ratelimitMBits := none } } =
      Except.ok { code := code0, data :=
        { address := "", mac := "", networkID := 0, portID := 0, slot := 0,
          ipGuard := 0, ratelimitMBits := none } } ∧
    VmRemoveNic { code := code0, message := "remove nic failed" } =
      Except.ok { code := code0, message := "remove nic failed" } ∧
    VmRatelimitNic { code := code0, message := "ratelimit nic failed" } =
      Except.ok { code := code0, message := "ratelimit nic failed" } ∧
    (∃ e, VmGet { code := code0, data := zeroVmGetData } = Except.error e) ∧
    (∃ e, VmSet { code := code0, message := "" } = Except.error e) ∧
    (∃ e, VmRemove { code := code0, message := "" } = Except.error e) ∧
    (∃ e, VmCreate { code := code0, data := { id := 1, operStatus := 10 } } =
      Except.error e) :=
  ⟨by decide, rfl, rfl, rfl, rfl, rfl, rfl, rfl, rfl, rfl,
    ⟨_, rfl⟩, ⟨_, rfl⟩, ⟨_, rfl⟩, ⟨_, rfl⟩⟩

/-- An empty VM model (every value null, no guest, no disks). -/
def emptyVM : VMResourceModel :=
  { id := none, name := none, description := none, cpus := none, ram := none
    cpuPriority := none, bootMedia := none, vcpuClass := none, osType := none
    osProfile := none, vdcID := none, adminStatus := none, node := none
    uefi := none, createCompleted := none, locked := none, rootDataset := none
    rootDatasetName := none, poolSelector := none, status := none
    operStatus := none, action := none, guest := none, disks := [] }

/-- An empty disk model (every value null). -/
def emptyDisk : DiskModel :=
  { guid := none, slot := none, size := none, iopsLimit := none
    mbpsLimit := none, label := none, sectorSize := none }

/-- C2: a sector-size difference between the planned and observed disk in a
shared slot makes updateExistingDisk fail with the message naming the slot
and instructing removal plus re-addition, and no remote call is issued. -/
theorem c2_sector_size_change_rejected (state : VMResourceModel)
    (disk stateDisk : DiskModel) (oracle : RemoteCall → Bool)
    (h : disk.sectorSize ≠ stateDisk.sectorSize) :
    updateExistingDisk state disk stateDisk oracle =
      ([], some (sectorSizeNotAllowedDetail (valueInt64 disk.slot))) := by
  simp only [updateExistingDisk, if_pos h]

/-- Witness for C2: slot 2, planned sector size 512/512 against an observed
null sector size. -/
theorem c2_sector_size_change_rejected_witness :
    ({ emptyDisk with
      slot := some 2
      sectorSize := some { logical := some 512, physical := some 512 } } :
      DiskModel).sectorSize ≠ emptyDisk.sectorSize ∧
    updateExistingDisk emptyVM
      { emptyDisk with
        slot := some 2
        sectorSize := some { logical := some 512, physical := some 512 } }
      emptyDisk (fun _ => true) =
      ([], some (sectorSizeNotAllowedDetail 2)) :=
  ⟨by decide,
    c2_sector_size_change_rejected emptyVM
      { emptyDisk with
        slot := some 2
        sectorSize := some { logical := some 512, physical := some 512 } }
      emptyDisk (fun _ => true) (by decide)⟩

/-- C3: with equal sector sizes, updateExistingDisk issues a vms-disk-resize
call exactly when the planned size is strictly greater than the observed
size; a planned size less than or equal to the observed size never issues a
resize call, whatever the other fields and call outcomes are. -/
theorem c3_resize_iff_growth (state : VMResourceModel) (disk stateDisk : DiskModel)
    (oracle : RemoteCall → Bool) (h : disk.sectorSize = stateDisk.sectorSize) :
    (updateExistingDisk state disk stateDisk oracle).1.any RemoteCall.isDiskResize = true
      ↔ valueInt64 stateDisk.size < valueInt64 disk.size := by
  unfold updateExistingDisk
  rw [if_neg (not_not_intro h)]
  by_cases hgt : valueInt64 stateDisk.size < valueInt64 disk.size <;>
  by_cases hrl : (valueInt64 disk.mbpsLimit ≠ valueInt64 stateDisk.mbpsLimit ∨
    valueInt64 disk.iopsLimit ≠ valueInt64 stateDisk.iopsLimit) <;>
  by_cases hlb : valueString disk.label ≠ valueString stateDisk.label <;>
  cases ho1 : oracle (RemoteCall.vmsDiskResize (valueInt64 state.id)
    (valueString stateDisk.guid) (ConvertGbToBytes (valueInt64 disk.size))) <;>
  cases ho2 : oracle (RemoteCall.vmRatelimitDisk (valueInt64 state.id)
    (valueString stateDisk.guid) (valueInt64 disk.mbpsLimit) (valueInt64 disk.iopsLimit)) <;>
  cases ho3 : oracle (RemoteCall.vmDiskSetLabel (valueInt64 state.id)
    (valueString stateDisk.guid) (valueString disk.label)) <;>
  simp [hgt, hrl, hlb, ho1, ho2, ho3, gt_iff_lt, RemoteCall.isDiskResize]

/-- Witness for C3: planned 20 GB against observed 10 GB in the same slot
with equal (null) sector sizes. -/
theorem c3_resize_iff_growth_witness :
    ({ emptyDisk with size := some 20 } : DiskModel).sectorSize =
      ({ emptyDisk with size := some 10 } : DiskModel).sectorSize ∧
    ((updateExistingDisk emptyVM { emptyDisk with size := some 20 }
        { emptyDisk with size := some 10 } (fun _ => true)).1.any
        RemoteCall.isDiskResize = true
      ↔ valueInt64 ({ emptyDisk with size := some 10 } : DiskModel).size <
          valueInt64 ({ emptyDisk with size := some 20 } : DiskModel).size) :=
  ⟨rfl, c3_resize_iff_growth emptyVM { emptyDisk with size := some 20 }
    { emptyDisk with size := some 10 } (fun _ => true) rfl⟩

/-- The calls the removal loop issues for one removed disk: a stop/restart
bracket around vm-remove-disk exactly when the snapshot status is not
offline. -/
def removedDiskCalls (state : VMResourceModel) (d : DiskModel) : List RemoteCall :=
  if valueInt64 state.operStatus ≠ Status.Offline then
    [RemoteCall.vmsStartStop "vms-stop" (valueInt64 state.id),
     RemoteCall.vmRemoveDisk (valueInt64 state.id) (valueString d.guid),
     RemoteCall.vmsStartStop "vms-restart" (valueInt64 state.id)]
  else
    [RemoteCall.vmRemoveDisk (valueInt64 state.id) (valueString d.guid)]

/-- Shape of the removal loop under an all-success transport. -/
theorem removeDisksGo_spec (state : VMResourceModel) (planSlots : List Int)
    (oracle : RemoteCall → Bool) (hok : ∀ c, oracle c = true) (l : List DiskModel) :
    removeDisksGo state planSlots oracle l =
      (l.flatMap (fun d =>
        if valueInt64 d.slot ∈ planSlots then [] else removedDiskCalls state d),
       none) := by
  induction l with
  | nil => simp [removeDisksGo]
  | cons d rest ih =>
    by_cases hmem : valueInt64 d.slot ∈ planSlots
    · simp [removeDisksGo, hmem, ih]
    · by_cases hoff : valueInt64 state.operStatus ≠ Status.Offline
      · simp [removeDisksGo, removedDiskCalls, hmem, hoff, hok, ih]
      · simp [removeDisksGo, removedDiskCalls, hmem, hoff, hok, ih]

/-- C4 (amended): for every disk in state but not in the plan, the
vm-remove-disk call is preceded by a stop and followed by a restart exactly
when the snapshot operational status is NOT offline (not: exactly when it is
started); all removals share the one status snapshot. -/
theorem c4_remove_bracket_iff_not_offline (state : VMResourceModel)
    (planDisksSlots : List Int) (oracle : RemoteCall → Bool)
    (hok : ∀ c, oracle c = true) :
    removeDisksNotInPlan state planDisksSlots oracle =
      (state.disks.flatMap (fun d =>
        if valueInt64 d.slot ∈ planDisksSlots then []
        else removedDiskCalls state d),
       none) := by
  unfold removeDisksNotInPlan
  exact removeDisksGo_spec state planDisksSlots oracle hok state.disks

/-- A VM in the post-create status Created (10) with one stale disk. -/
def c4StateVM : VMResourceModel :=
  { emptyVM with
    id := some 7
    operStatus := some 10
    disks := [{ emptyDisk with slot := some 3, guid := some "g3" }] }

/-- Counterexample for C4 as stated: the VM operational status is Created,
which is not "started" (so not running by the claim definition), yet the
removal of the stale disk is still bracketed by vms-stop and vms-restart. -/
theorem c4_stop_despite_not_running :
    valueInt64 c4StateVM.operStatus ≠ Status.Started ∧
    removeDisksNotInPlan c4StateVM [] (fun _ => true) =
      ([RemoteCall.vmsStartStop "vms-stop" 7,
        RemoteCall.vmRemoveDisk 7 "g3",
        RemoteCall.vmsStartStop "vms-restart" 7], none) :=
  ⟨by decide, by decide⟩

/-- An offline VM with one stale disk, for the C4 witness. -/
def c4OfflineVM : VMResourceModel :=
  { emptyVM with
    id := some 9
    operStatus := some 1
    disks := [{ emptyDisk with slot := some 5, guid := some "g5" }] }

/-- Witness for C4 (amended) at the offline VM: the removal is issued with
no stop/restart bracket. -/
theorem c4_remove_bracket_iff_not_offline_witness :
    removeDisksNotInPlan c4OfflineVM [] (fun _ => true) =
      ([RemoteCall.vmRemoveDisk 9 "g5"], none) :=
  (c4_remove_bracket_iff_not_offline c4OfflineVM [] (fun _ => true)
    (fun _ => rfl)).trans (by decide)

/-- A list of optional values with a non-none member has a findSome?. -/
theorem findSome?_id_isSome {α : Type} {l : List (Option α)}
    (hx : ∃ x ∈ l, x ≠ none) : (l.findSome? id).isSome := by
  rcases hx with ⟨x, hmem, hne⟩
  by_cases hn : l.findSome? id = none
  · rw [List.findSome?_eq_none_iff] at hn
    exact absurd (hn x hmem) hne
  · exact Option.isSome_iff_ne_none.mpr hn

/-- C5 (amended): a validation failure in one of the scalar fields, all of
which are checked before any assignment, aborts the mapping and returns the
caller-supplied state untouched.  (A failure inside the disk-list mapping
does NOT restore the original state: see the counterexample, where the
scalar fields are already rewritten when the disk error is returned.) -/
theorem c5_scalar_failure_returns_original (resp : VmGetResult)
    (state : VMResourceModel)
    (h : resp.data.id < 0 ∨ resp.data.cpus < 0 ∨ resp.data.ram < 0 ∨
      resp.data.cpuPriority < 0 ∨ resp.data.bootMediaID < 0 ∨
      resp.data.vcpuClass < 0 ∨ resp.data.osType < 0 ∨ resp.data.vdc < 0 ∨
      resp.data.adminStatus < 0 ∨ resp.data.node < 0 ∨
      resp.data.createCompleted < 0 ∨ resp.data.locked < 0 ∨
      resp.data.status < 0 ∨ resp.data.operStatus < 0) :
    ∃ e, MapRespToState resp state = (state, some e) := by
  have hsome : (mapRespValidationErr resp).isSome := by
    unfold mapRespValidationErr
    rcases h with h | h | h | h | h | h | h | h | h | h | h | h | h | h
    · exact findSome?_id_isSome
        ⟨validateInt64 resp.data.id "ID", by simp, by simp [validateInt64, h]⟩
    · exact findSome?_id_isSome
        ⟨validateInt64 resp.data.cpus "CPUs", by simp, by simp [validateInt64, h]⟩
    · exact findSome?_id_isSome
        ⟨validateInt64 resp.data.ram "RAM", by simp, by simp [validateInt64, h]⟩
    · exact findSome?_id_isSome
        ⟨validateInt64 resp.data.cpuPriority "CPU Priority", by simp,
          by simp [validateInt64, h]⟩
    · exact findSome?_id_isSome
        ⟨validateInt64 resp.data.bootMediaID "Boot Media ID", by simp,
          by simp [validateInt64, h]⟩
    · exact findSome?_id_isSome
        ⟨validateInt64 resp.data.vcpuClass "Vcpu Class", by simp,
          by simp [validateInt64, h]⟩
    · exact findSome?_id_isSome
        ⟨validateInt64 resp.data.osType "OS Type", by simp, by simp [validateInt64, h]⟩
    · exact findSome?_id_isSome
        ⟨validateInt64 resp.data.vdc "Vdc ID", by simp, by simp [validateInt64, h]⟩
    · exact findSome?_id_isSome
        ⟨validateInt64 resp.data.adminStatus "Admin Status", by simp,
          by simp [validateInt64, h]⟩
    · exact findSome?_id_isSome
        ⟨validateInt64 resp.data.node "Node", by simp, by simp [validateInt64, h]⟩
    · exact findSome?_id_isSome
        ⟨validateInt64 resp.data.createCompleted "Create Completed", by simp,
          by simp [validateInt64, h]⟩
    · exact findSome?_id_isSome
        ⟨validateInt64 resp.data.locked "Locked", by simp, by simp [validateInt64, h]⟩
    · exact findSome?_id_isSome
        ⟨validateInt64 resp.data.status "Status", by simp, by simp [validateInt64, h]⟩
    · exact findSome?_id_isSome
        ⟨validateInt64 resp.data.operStatus "Oper Status", by simp,
          by simp [validateInt64, h]⟩
  obtain ⟨e, he⟩ := Option.isSome_iff_exists.mp hsome
  refine ⟨e, ?_⟩
  unfold MapRespToState
  rw [he]

/-- A describe response whose scalar fields validate (id 5) but whose disk
list contains a negative size, failing the disk mapping. -/
def c5Resp : VmGetResult :=
  { code := code0
    data := { zeroVmGetData with
      id := 5
      disks := [{ guid := "d"
                  size := -1
                  slot := 1
                  iopsLimit := none
                  mbpsLimit := none
                  label := ""
                  sectorSize := none }] } }

/-- Counterexample for C5 as stated: on this disk-validation failure the
mapping returns an error, but the accompanying state is NOT the original
input state - its id field has already been rewritten from the response. -/
theorem c5_disk_failure_keeps_rewritten_fields :
    (MapRespToState c5Resp emptyVM).2.isSome = true ∧
    (MapRespToState c5Resp emptyVM).1 ≠ emptyVM ∧
    (MapRespToState c5Resp emptyVM).1.id = some 5 ∧ emptyVM.id = none := by
  decide

/-- A describe response with a negative id, failing the first scalar
validation. -/
def c5NegResp : VmGetResult :=
  { code := code0, data := { zeroVmGetData with id := -1 } }

/-- Witness for C5 (amended) at the negative-id response. -/
theorem c5_scalar_failure_returns_original_witness :
    c5NegResp.data.id < 0 ∧
    ∃ e, MapRespToState c5NegResp emptyVM = (emptyVM, some e) :=
  ⟨by decide,
    c5_scalar_failure_returns_original c5NegResp emptyVM (Or.inl (by decide))⟩

/-- C6 (amended): a plan disk without a sector size that is absent from the
observed state is added through UpdateDisks with the size converted from GB
to bytes and a sector-size payload of logical=512 / physical=512: the
512/512 default-fill runs before addNewDisk, so the 512/4096 fallback inside
addNewDisk never applies on this path. -/
theorem c6_add_disk_defaults (plan state : VMResourceModel) (disk : DiskModel)
    (oracle : RemoteCall → Bool)
    (hplan : plan.disks = [disk]) (hnull : disk.sectorSize = none)
    (hstate : state.disks = []) (hok : ∀ c, oracle c = true) :
    UpdateDisks plan state oracle =
      ([RemoteCall.vmsAddDisk (valueInt64 state.id)
          (ConvertGbToBytes (valueInt64 disk.size)) (valueInt64 disk.slot)
          (valueString disk.label) 512 512 (valueInt64 disk.iopsLimit)
          (valueInt64 disk.mbpsLimit)], none) := by
  unfold UpdateDisks
  rw [hplan]
  simp [updateDisksGo, stateDiskForSlot, hstate, addNewDisk, addDiskSectorAttrs,
    ApplyDefaultSectorSize, hnull, hok, removeDisksNotInPlan, removeDisksGo]

/-- A plan with one new disk (slot 1, 1 GB, no sector size). -/
def c6Plan : VMResourceModel :=
  { emptyVM with disks := [{ emptyDisk with slot := some 1, size := some 1 }] }

/-- The observed state for the C6 scenario: VM 7 with no disks. -/
def c6State : VMResourceModel :=
  { emptyVM with id := some 7 }

/-- Counterexample for C6 as stated: the vms-add-disk payload for an
unspecified sector size carries physical=512 (from the pre-applied 512/512
default-fill), not the physical=4096 the claim asserts. -/
theorem c6_add_disk_physical_not_4096 :
    UpdateDisks c6Plan c6State (fun _ => true) =
      ([RemoteCall.vmsAddDisk 7 1073741824 1 "" 512 512 0 0], none) ∧
    UpdateDisks c6Plan c6State (fun _ => true) ≠
      ([RemoteCall.vmsAddDisk 7 1073741824 1 "" 512 4096 0 0], none) := by
  decide

/-- Witness for C6 (amended) at the concrete plan/state pair. -/
theorem c6_add_disk_defaults_witness :
    UpdateDisks c6Plan c6State (fun _ => true) =
      ([RemoteCall.vmsAddDisk 7 1073741824 1 "" 512 512 0 0], none) :=
  (c6_add_disk_defaults c6Plan c6State
    { emptyDisk with slot := some 1, size := some 1 } (fun _ => true)
    rfl rfl rfl (fun _ => rfl)).trans (by decide)

/-- Comparing a disk against itself issues no call and no error. -/
theorem updateExistingDisk_self (state : VMResourceModel) (d : DiskModel)
    (oracle : RemoteCall → Bool) :
    updateExistingDisk state d d oracle = ([], none) := by
  simp [updateExistingDisk]

/-- With pairwise distinct slots, the by-slot map lookup of a member disk
returns that disk. -/
theorem stateDiskForSlot_mem_nodup (l : List DiskModel) (d : DiskModel)
    (hnodup : (l.map (fun x => valueInt64 x.slot)).Nodup) (hmem : d ∈ l) :
    stateDiskForSlot l (valueInt64 d.slot) = some d := by
  induction l with
  | nil => cases hmem
  | cons a t ih =>
    rw [List.map_cons, List.nodup_cons] at hnodup
    obtain ⟨hna, hnt⟩ := hnodup
    rcases List.mem_cons.mp hmem with rfl | hmem
    · have hft : t.filter (fun x => valueInt64 x.slot = valueInt64 d.slot) = [] := by
        rw [List.filter_eq_nil_iff]
        intro x hx
        simp only [decide_eq_true_eq]
        intro hcontra
        exact hna (hcontra ▸ List.mem_map_of_mem (fun y => valueInt64 y.slot) hx)
      unfold stateDiskForSlot
      rw [List.filter_cons]
      simp [hft]
    · have hpa : ¬ (valueInt64 a.slot = valueInt64 d.slot) := by
        intro hcontra
        exact hna (hcontra ▸ List.mem_map_of_mem (fun y => valueInt64 y.slot) hmem)
      unfold stateDiskForSlot
      rw [List.filter_cons]
      simp only [hpa, decide_eq_true_eq, if_false, if_neg]
      exact ih hnt hmem


/-- A plan-disk walk in which every disk maps to itself issues nothing. -/
theorem updateDisksGo_noop (state : VMResourceModel) (oracle : RemoteCall → Bool)
    (l : List DiskModel)
    (h : ∀ d ∈ l, stateDiskForSlot state.disks (valueInt64 d.slot) = some d) :
    updateDisksGo state oracle l = ([], none) := by
  induction l with
  | nil => rfl
  | cons d t ih =>
    unfold updateDisksGo
    rw [h d (List.mem_cons_self d t)]
    simp [updateExistingDisk_self,
      ih (fun x hx => h x (List.mem_cons_of_mem d hx))]

/-- A removal walk in which every state disk slot is still planned issues
nothing. -/
theorem removeDisksGo_noop (state : VMResourceModel) (planSlots : List Int)
    (oracle : RemoteCall → Bool) (l : List DiskModel)
    (h : ∀ d ∈ l, valueInt64 d.slot ∈ planSlots) :
    removeDisksGo state planSlots oracle l = ([], none) := by
  induction l with
  | nil => rfl
  | cons d t ih =>
    unfold removeDisksGo
    rw [if_pos (h d (List.mem_cons_self d t))]
    exact ih (fun x hx => h x (List.mem_cons_of_mem d hx))

/-- When the default-filled plan disks coincide with the observed disks
(unique slots), disk reconciliation issues no call at all. -/
theorem UpdateDisks_noop (plan state : VMResourceModel) (oracle : RemoteCall → Bool)
    (hdisks : plan.disks.map ApplyDefaultSectorSize = state.disks)
    (hnodup : (state.disks.map (fun d => valueInt64 d.slot)).Nodup) :
    UpdateDisks plan state oracle = ([], none) := by
  unfold UpdateDisks
  rw [hdisks]
  have hgo := updateDisksGo_noop state oracle state.disks
    (fun d hd => stateDiskForSlot_mem_nodup state.disks d hnodup hd)
  have hrem := removeDisksGo_noop state
    (state.disks.map (fun d => valueInt64 d.slot)) oracle state.disks
    (fun d hd => List.mem_map_of_mem (fun x => valueInt64 x.slot) hd)
  simp [hgo, removeDisksNotInPlan, hrem]

/-- C7 (amended): re-applying a configuration the remote state already
matches (default-filled plan disks equal to the observed disks with unique
slots, no changed top-level field, empty planned action) issues only the
final describe call - no vm-set, no disk call, no start/stop.  (When the
plan carries action "start" or "stop" the action calls are re-issued even if
already realized: see the counterexample.) -/
theorem c7_reapply_only_describe (plan state : VMResourceModel)
    (isRunning : Bool) (oracle : RemoteCall → Bool)
    (hid : valueInt64 plan.id ≠ 0)
    (hdisks : plan.disks.map ApplyDefaultSectorSize = state.disks)
    (hnodup : (state.disks.map (fun d => valueInt64 d.slot)).Nodup)
    (hparams : changedVmParams plan state = [])
    (haction : valueString plan.action = "")
    (hok : ∀ c, oracle c = true) :
    UpdateVM plan state isRunning oracle =
      ([RemoteCall.vmGet (valueInt64 plan.id)], none) := by
  unfold UpdateVM
  rw [if_neg hid]
  rw [UpdateDisks_noop plan state oracle hdisks hnodup]
  simp +decide [hparams, updateManageVMState, haction, hok, stringToLower]

/-- A self-matching VM state: running (status 3) with the plan action
"start" that is already realized. -/
def c7VM : VMResourceModel :=
  { emptyVM with
    id := some 7
    operStatus := some 3
    action := some "start" }

/-- Counterexample for C7 as stated: re-applying the matching configuration
whose action "start" is already realized (the VM is running) still issues a
mutating vms-restart call before the final describe. -/
theorem c7_start_action_reissued :
    changedVmParams c7VM c7VM = [] ∧
    valueInt64 c7VM.operStatus = Status.Started ∧
    UpdateVM c7VM c7VM true (fun _ => true) =
      ([RemoteCall.vmsStartStop "vms-restart" 7, RemoteCall.vmGet 7], none) ∧
    (RemoteCall.vmsStartStop "vms-restart" 7).isRead = false := by
  decide

/-- A self-matching VM with no planned action, for the C7 witness. -/
def c7IdleVM : VMResourceModel :=
  { emptyVM with
    id := some 7
    operStatus := some 3 }

/-- Witness for C7 (amended) at the idle matching configuration. -/
theorem c7_reapply_only_describe_witness :
    UpdateVM c7IdleVM c7IdleVM true (fun _ => true) =
      ([RemoteCall.vmGet 7], none) :=
  (c7_reapply_only_describe c7IdleVM c7IdleVM true (fun _ => true)
    (by decide) rfl (by decide) rfl rfl (fun _ => rfl)).trans (by decide)

/-- C8: a Create with action "stop" on a VM whose immediate post-create
status is Created, or which is observed not running, issues a start action
(vms-restart) and then a stop action (vms-stop) after the one vm-get of the
running check - never a stop alone. -/
theorem c8_create_stop_bootstraps_start (vmID postStatus : Int)
    (isRunning : Bool) (oracle : RemoteCall → Bool)
    (h : postStatus = Status.Created ∨ isRunning = false)
    (hok : ∀ c, oracle c = true) :
    createManageVMState vmID postStatus "stop" isRunning oracle =
      ([RemoteCall.vmGet vmID,
        RemoteCall.vmsStartStop "vms-restart" vmID,
        RemoteCall.vmsStartStop "vms-stop" vmID], none) := by
  unfold createManageVMState
  simp +decide [stringToLower, PerformAction, Action, ActionVM.Execute, hok, h]

/-- Witness for C8: post-create status Created (10). -/
theorem c8_create_stop_bootstraps_start_witness :
    ((10 : Int) = Status.Created ∨ true = false) ∧
    createManageVMState 7 10 "stop" true (fun _ => true) =
      ([RemoteCall.vmGet 7,
        RemoteCall.vmsStartStop "vms-restart" 7,
        RemoteCall.vmsStartStop "vms-stop" 7], none) :=
  ⟨Or.inl (by decide),
    c8_create_stop_bootstraps_start 7 10 true (fun _ => true)
      (Or.inl (by decide)) (fun _ => rfl)⟩

end VStack
